import Mathlib

/-!
Shallow embedding of the blog-app backend core: the blog document model
(`backend/models/Blog.model.js`), the blog controller handlers
(`getBlogs`, `getBlogById`, `createBlog`, `updateBlog`, `deleteBlog`),
and the `protect` authentication middleware, together with theorems that
settle the specification claims about publication state, visibility,
ownership-based write authorization, pagination and field projection.

Identifiers (Mongo ObjectIds) are modelled as `Nat`; timestamps as `Nat`;
the document store as a `List BlogPost`. HTTP responses are modelled as
records carrying status code, success flag, message and payload, exactly
the fields the handlers emit.
-/

namespace BlogApp

/-- A section of a blog post: `sectionSchema` in `Blog.model.js`
(heading, content, list of examples). -/
structure PostSection where
  heading : String
  content : String
  examples : List String
deriving Repr, DecidableEq

/-- A blog document: `blogSchema` in `Blog.model.js`. `publishedAt` is an
optional timestamp; `author` is the ObjectId of the admin that created the
post (always set by `createBlog`, which uses `req.admin._id`). -/
structure BlogPost where
  id : Nat
  title : String
  introduction : String
  sections : List PostSection
  isPublished : Bool
  publishedAt : Option Nat
  author : Nat
deriving Repr, DecidableEq

/-- Embeds `Blog.findById`: first (unique) document with the given id. -/
def findById (store : List BlogPost) (id : Nat) : Option BlogPost :=
  store.find? (fun p => p.id == id)

/-- The `pre_save` hook of `blogSchema`: if the document is published and
`publishedAt` is unset, set `publishedAt` to the current time; otherwise
leave the document unchanged. Runs on `save`/`create`, not on
`findByIdAndUpdate`. -/
def preSaveHook (p : BlogPost) (now : Nat) : BlogPost :=
  if p.isPublished && p.publishedAt.isNone then
    { p with publishedAt := some now }
  else
    p

/-- Setting the publish flag and saving the document, i.e. the publication
transition realised by the save path: assign `isPublished := b`, then run
the `pre_save` hook. -/
def applyPublicationTransition (p : BlogPost) (b : Bool) (now : Nat) : BlogPost :=
  preSaveHook { p with isPublished := b } now

/-- Response of the single-post read `getBlogById`: HTTP status, `success`
flag, optional `message`, optional `blog` payload. -/
structure ReadResponse where
  status : Nat
  success : Bool
  message : Option String
  blog : Option BlogPost
deriving Repr, DecidableEq

/-- Handler `getBlogById` of the blog controller: load by id; missing id gives
404 "Blog not found"; an unpublished post gives 403 "This blog is not
published"; otherwise 200 with the blog. The route (`GET /api/blogs/:id`)
is public: no `protect` middleware runs, and the handler never consults a
caller identity. -/
def getBlogById (store : List BlogPost) (id : Nat) : ReadResponse :=
  match findById store id with
  | none => ⟨404, false, some "Blog not found", none⟩
  | some blog =>
    if !blog.isPublished then
      ⟨403, false, some "This blog is not published", none⟩
    else
      ⟨200, true, none, some blog⟩

/-- The single-post read as seen by a caller with an (optional) identity:
the route applies no authentication middleware, so the identity is simply
discarded before `getBlogById` runs. -/
def getBlogByIdAs (store : List BlogPost) (_callerIdentity : Option Nat)
    (id : Nat) : ReadResponse :=
  getBlogById store id

/-- Modelled from the spec: `isVisibleTo(post, callerIdentity)` as §4.1
words it — true unconditionally when the identity is present and equals
`post.authorRef`, otherwise true iff `post.isPublished`. Used only to
compare the visibility rule of the spec with the behaviour of the code. -/
def isVisibleTo_spec (post : BlogPost) (callerIdentity : Option Nat) : Bool :=
  callerIdentity == some post.author || post.isPublished

/-- Outcome of a write request (create/update/delete path), combining the
`protect` middleware with the handler: 401 when no valid identity, 404 when
the id resolves to no document, 403 when the caller is not the author,
otherwise success carrying the resulting document (`deleted` for the
delete handler, which returns no document). -/
inductive WriteOutcome where
  | unauthenticated
  | notFound
  | notOwner
  | ok (blog : BlogPost)
  | deleted
deriving Repr, DecidableEq

/-- A write outcome that is a rejection (401/404/403), as opposed to a
successful mutation. -/
def WriteOutcome.isDenied : WriteOutcome → Bool
  | .unauthenticated => true
  | .notFound => true
  | .notOwner => true
  | .ok _ => false
  | .deleted => false

/-- Result of the composed authorization check on a loaded document:
`protect` (identity must be present) followed by the handler
`blog.author.toString() !== req.admin._id.toString()` comparison. -/
inductive AuthResult where
  | allowed
  | deniedUnauthenticated
  | deniedNotOwner
deriving Repr, DecidableEq

/-- The write authorization the code performs on a loaded post: `protect`
rejects an absent identity (401); the update/delete handlers reject an
identity different from `blog.author` (403); otherwise the write proceeds. -/
def authorizeWrite (post : BlogPost) (callerIdentity : Option Nat) : AuthResult :=
  match callerIdentity with
  | none => .deniedUnauthenticated
  | some adminId =>
    if post.author != adminId then .deniedNotOwner else .allowed

/-- A `PUT /api/blogs/:id` request body. Each field is optional: Mongoose
`findByIdAndUpdate(id, req.body)` sets exactly the fields present in the
body and leaves the rest untouched. The body may carry any schema field,
including `publishedAt` and `author`. -/
structure UpdateBody where
  title : Option String := none
  introduction : Option String := none
  sections : Option (List PostSection) := none
  isPublished : Option Bool := none
  publishedAt : Option (Option Nat) := none
  author : Option Nat := none
deriving Repr, DecidableEq

/-- Mongoose `findByIdAndUpdate` applied to a loaded document: overwrite each field
present in the body. The `pre_save` hook does not run on this path
(it is `save` middleware, not `findOneAndUpdate` middleware), so
`publishedAt` is not recomputed here. -/
def applyUpdate (p : BlogPost) (b : UpdateBody) : BlogPost :=
  { p with
    title := b.title.getD p.title
    introduction := b.introduction.getD p.introduction
    sections := b.sections.getD p.sections
    isPublished := b.isPublished.getD p.isPublished
    publishedAt := b.publishedAt.getD p.publishedAt
    author := b.author.getD p.author }

/-- Replace the document with the given id, leaving all others unchanged. -/
def replaceById (store : List BlogPost) (id : Nat) (p' : BlogPost) : List BlogPost :=
  store.map (fun p => if p.id == id then p' else p)

/-- Handler `updateBlog` behind `protect`: reject an absent identity (401, from the
middleware); load by id, missing gives 404; a caller other than the author
gives 403; otherwise `findByIdAndUpdate(id, req.body)` replaces the stored
document and the handler returns it. Returns the new store and the outcome. -/
def updateBlog (store : List BlogPost) (callerIdentity : Option Nat)
    (id : Nat) (body : UpdateBody) : List BlogPost × WriteOutcome :=
  match callerIdentity with
  | none => (store, .unauthenticated)
  | some adminId =>
    match findById store id with
    | none => (store, .notFound)
    | some blog =>
      if blog.author != adminId then
        (store, .notOwner)
      else
        let blog' := applyUpdate blog body
        (replaceById store id blog', .ok blog')

/-- Handler `deleteBlog` behind `protect`: same gating as `updateBlog`; on success
the document is removed from the store. -/
def deleteBlog (store : List BlogPost) (callerIdentity : Option Nat)
    (id : Nat) : List BlogPost × WriteOutcome :=
  match callerIdentity with
  | none => (store, .unauthenticated)
  | some adminId =>
    match findById store id with
    | none => (store, .notFound)
    | some blog =>
      if blog.author != adminId then
        (store, .notOwner)
      else
        (store.filter (fun p => p.id != id), .deleted)

/-- Handler `createBlog` behind `protect`: an absent identity is rejected (401);
otherwise `Blog.create` builds the document with `author := req.admin._id`
and runs the `pre_save` hook before persisting. -/
def createBlog (store : List BlogPost) (callerIdentity : Option Nat)
    (title introduction : String) (sections : List PostSection)
    (isPublished : Bool) (newId now : Nat) : List BlogPost × WriteOutcome :=
  match callerIdentity with
  | none => (store, .unauthenticated)
  | some adminId =>
    let blog := preSaveHook
      ⟨newId, title, introduction, sections, isPublished, none, adminId⟩ now
    (store ++ [blog], .ok blog)

/-- Sort key used by the descending publishedAt sort of `getBlogs`: an unset
timestamp orders below every set one (Mongo places missing values last in a
descending sort). -/
def pubKey (p : BlogPost) : Nat :=
  match p.publishedAt with
  | none => 0
  | some t => t + 1

/-- A list is in the descending `publishedAt` order the query requests:
the key of every element is at least the key of every later element. -/
def SortedDesc (l : List BlogPost) : Prop :=
  List.Pairwise (fun a b => pubKey b ≤ pubKey a) l

instance : DecidablePred SortedDesc := fun l =>
  List.instDecidablePairwise l

/-- Answer of the document store to
`Blog.find(\x7b isPublished: true \x7d).sort(publishedAt descending)`: any list
holding exactly the published documents (a permutation of the filter result), arranged in descending `publishedAt` order. The query names no
secondary sort key, so the relative order Mongo gives of equal-key documents is
unconstrained and the answer is a relation, not a function. -/
def ValidListOutput (store : List BlogPost) (out : List BlogPost) : Prop :=
  out.Perm (store.filter (fun p => p.isPublished)) ∧ SortedDesc out

instance (store out : List BlogPost) : Decidable (ValidListOutput store out) :=
  inferInstanceAs (Decidable (_ ∧ _))

/-- A blog as it appears in the `getBlogs` page: `select minus-sections`
strips the `sections` field and keeps every other schema field. -/
structure ListedPost where
  id : Nat
  title : String
  introduction : String
  isPublished : Bool
  publishedAt : Option Nat
  author : Nat
deriving Repr, DecidableEq

/-- The `select minus-sections` projection applied to each document of the
page. -/
def dropSections (p : BlogPost) : ListedPost :=
  ⟨p.id, p.title, p.introduction, p.isPublished, p.publishedAt, p.author⟩

/-- Response of `getBlogs`: `success`, `count` (page length), `total`
(published count), `pages` (`Math.ceil(total / limit)`), `currentPage`,
and the page of projected blogs. -/
structure ListResponse where
  success : Bool
  count : Nat
  total : Nat
  pages : Nat
  currentPage : Nat
  blogs : List ListedPost
deriving Repr, DecidableEq

/-- Handler `getBlogs` given the sorted store answer `sorted` to the published
query: `skip := (page - 1) * limit`, take `limit` documents, project away
`sections`, and report `total` and `pages := Math.ceil(total / limit)`
(natural-number ceiling division). The handler raises no error for a page
past the end: the slice is simply empty. -/
def getBlogs (sorted : List BlogPost) (page limit : Nat) : ListResponse :=
  let skip := (page - 1) * limit
  let pageBlogs := ((sorted.drop skip).take limit).map dropSections
  { success := true
    count := pageBlogs.length
    total := sorted.length
    pages := (sorted.length + limit - 1) / limit
    currentPage := page
    blogs := pageBlogs }

/-! Concrete documents and request bodies used to exercise the model. -/

/-- An unpublished draft authored by admin 1. -/
def draftPost : BlogPost :=
  ⟨1, "Draft title", "Draft intro", [⟨"h", "c", []⟩], false, none, 1⟩

/-- A published post authored by admin 1. -/
def livePost : BlogPost :=
  ⟨2, "Live title", "Live intro", [], true, some 10, 1⟩

/-- A published post authored by admin 1, sharing its `publishedAt` with
`tieB`. -/
def tieA : BlogPost := ⟨10, "A", "ia", [], true, some 50, 1⟩

/-- A published post authored by admin 1, sharing its `publishedAt` with
`tieA`. -/
def tieB : BlogPost := ⟨11, "B", "ib", [], true, some 50, 1⟩

/-- Request body that only sets the publish flag. -/
def publishBody : UpdateBody := { isPublished := some true }

/-- Request body that only rewrites the author field. -/
def authorBody : UpdateBody := { author := some 2 }

/-- Empty request body: no field is touched. -/
def emptyBody : UpdateBody := {}

/-- Thirteen published posts with strictly decreasing `publishedAt`, the
pagination scenario of the spec. -/
def thirteen : List BlogPost :=
  (List.range 13).map (fun k => ⟨k, "T", "I", [], true, some (100 - k), 1⟩)

/-! Theorems settling the claims. -/

/-- C1, counterexample: the claim says an author can always read their own
post even while it is unpublished. On the code, the single-post read
ignores the caller identity and rejects every unpublished post with 403,
so the author of `draftPost` — visible according to the spec rule — gets
no post back. -/
theorem getBlogById_author_draft_invisible :
    isVisibleTo_spec draftPost (some draftPost.author) = true ∧
    (getBlogByIdAs [draftPost] (some draftPost.author) draftPost.id).success = false ∧
    (getBlogByIdAs [draftPost] (some draftPost.author) draftPost.id).blog = none := by
  decide

/-- C1, amended: the single-post read makes a post visible iff the post is
stored under the requested id and `isPublished` is true; the caller
identity plays no role (the route runs no authentication middleware), so
an author has no special access to their own unpublished post. -/
theorem getBlogById_visibility (store : List BlogPost) (callerIdentity : Option Nat)
    (id : Nat) :
    (getBlogByIdAs store callerIdentity id = getBlogById store id) ∧
    ((getBlogByIdAs store callerIdentity id).success = true ↔
      ∃ p, findById store id = some p ∧ p.isPublished = true) ∧
    ((getBlogByIdAs store callerIdentity id).blog =
      (findById store id).filter (fun p => p.isPublished)) := by
  refine ⟨rfl, ?_, ?_⟩
  all_goals
    simp only [getBlogByIdAs, getBlogById]
    cases h : findById store id with
    | none => simp
    | some p => cases hp : p.isPublished <;> simp [hp, Option.filter]

/-- C1, witness for the amended theorem at a concrete store and caller. -/
theorem getBlogById_visibility_witness :
    (getBlogByIdAs [draftPost, livePost] none livePost.id =
      getBlogById [draftPost, livePost] livePost.id) ∧
    ((getBlogByIdAs [draftPost, livePost] none livePost.id).success = true ↔
      ∃ p, findById [draftPost, livePost] livePost.id = some p ∧
        p.isPublished = true) ∧
    ((getBlogByIdAs [draftPost, livePost] none livePost.id).blog =
      (findById [draftPost, livePost] livePost.id).filter
        (fun p => p.isPublished)) :=
  getBlogById_visibility [draftPost, livePost] none livePost.id

/-- C2, counterexample: the claim says reading a non-visible post is
indistinguishable from reading a missing id. On the code, the unpublished
`draftPost` draws a 403 response while a missing id draws a 404 response,
so the two runs differ and the existence of the draft is disclosed. -/
theorem getBlogById_draft_distinguishable_from_missing :
    draftPost.isPublished = false ∧
    (getBlogByIdAs [draftPost] none draftPost.id).status = 403 ∧
    (getBlogByIdAs [draftPost] none 99).status = 404 ∧
    getBlogByIdAs [draftPost] none draftPost.id ≠ getBlogByIdAs [draftPost] none 99 := by
  decide

/-- C2, amended: a stored unpublished post draws the fixed 403 response
with message "This blog is not published" for every caller, and that
response differs from the response for every id that resolves to no
document (the fixed 404 response), so the two runs are distinguishable. -/
theorem getBlogById_unpublished_response (store : List BlogPost)
    (callerIdentity : Option Nat) (id : Nat) (p : BlogPost)
    (hfind : findById store id = some p) (hpub : p.isPublished = false) :
    getBlogByIdAs store callerIdentity id =
      ⟨403, false, some "This blog is not published", none⟩ ∧
    ∀ id2, findById store id2 = none →
      getBlogByIdAs store callerIdentity id ≠ getBlogByIdAs store callerIdentity id2 := by
  have h1 : getBlogByIdAs store callerIdentity id =
      ⟨403, false, some "This blog is not published", none⟩ := by
    simp [getBlogByIdAs, getBlogById, hfind, hpub]
  refine ⟨h1, fun id2 h2 => ?_⟩
  have h3 : getBlogByIdAs store callerIdentity id2 =
      ⟨404, false, some "Blog not found", none⟩ := by
    simp [getBlogByIdAs, getBlogById, h2]
  rw [h1, h3]
  decide

/-- C2, witness for the amended theorem at a concrete store. -/
theorem getBlogById_unpublished_response_witness :
    (getBlogByIdAs [draftPost] none draftPost.id =
      ⟨403, false, some "This blog is not published", none⟩) ∧
    (∀ id2, findById [draftPost] id2 = none →
      getBlogByIdAs [draftPost] none draftPost.id ≠
        getBlogByIdAs [draftPost] none id2) :=
  getBlogById_unpublished_response [draftPost] none draftPost.id draftPost
    (by decide) (by decide)

/-- C3: publishing through the update path never sets `publishedAt`. The
update handler uses `findByIdAndUpdate`, which does not run the pre-save
hook of the schema, so setting `isPublished := true` on `draftPost` via an
update leaves `publishedAt` unset — while the documented save-path
transition at the same input would set it. -/
theorem updateBlog_publish_skips_publishedAt :
    (updateBlog [draftPost] (some draftPost.author) draftPost.id publishBody).2 =
      .ok { draftPost with isPublished := true } ∧
    findById (updateBlog [draftPost] (some draftPost.author) draftPost.id publishBody).1
      draftPost.id = some { draftPost with isPublished := true } ∧
    ({ draftPost with isPublished := true } : BlogPost).publishedAt = none ∧
    (applyPublicationTransition draftPost true 5).publishedAt = some 5 := by
  decide

/-- C4: write authorization. On a loaded post, authorization is allowed
iff the identity is present and equals the stored author; an absent
identity is rejected as unauthenticated by the middleware; a present
non-author identity is rejected as not-owner; and both write handlers
decide their outcome on an existing post exactly by this check, on every
request, independent of publication state. -/
theorem authorizeWrite_characterisation (p : BlogPost) (i : Option Nat) :
    (authorizeWrite p i = .allowed ↔ i = some p.author) ∧
    (authorizeWrite p none = .deniedUnauthenticated) ∧
    (∀ j, i = some j → j ≠ p.author → authorizeWrite p i = .deniedNotOwner) ∧
    (∀ store id body blog, findById store id = some blog →
      (((updateBlog store i id body).2 = .ok (applyUpdate blog body)) ↔
        authorizeWrite blog i = .allowed) ∧
      (((updateBlog store i id body).2 = .unauthenticated) ↔
        authorizeWrite blog i = .deniedUnauthenticated) ∧
      (((updateBlog store i id body).2 = .notOwner) ↔
        authorizeWrite blog i = .deniedNotOwner) ∧
      (((deleteBlog store i id).2 = .deleted) ↔
        authorizeWrite blog i = .allowed)) := by
  refine ⟨?_, rfl, ?_, ?_⟩
  · cases i with
    | none => simp [authorizeWrite]
    | some j =>
      by_cases hj : p.author = j
      · simp [authorizeWrite, hj]
      · simp [authorizeWrite, hj]
        omega
  · rintro j rfl hj
    simp [authorizeWrite, Ne.symm hj]
  · intro store id body blog hblog
    cases i with
    | none => simp [authorizeWrite, updateBlog, deleteBlog]
    | some j =>
      by_cases hj : blog.author = j <;>
        simp [authorizeWrite, updateBlog, deleteBlog, hblog, hj]

/-- C4, witness: the characterisation applied to `livePost` and the
identity of a non-author admin. -/
theorem authorizeWrite_characterisation_witness :
    ((authorizeWrite livePost (some 2) = .allowed ↔ some 2 = some livePost.author) ∧
    (authorizeWrite livePost none = .deniedUnauthenticated) ∧
    (∀ j, some 2 = some j → j ≠ livePost.author →
      authorizeWrite livePost (some 2) = .deniedNotOwner) ∧
    (∀ store id body blog, findById store id = some blog →
      (((updateBlog store (some 2) id body).2 = .ok (applyUpdate blog body)) ↔
        authorizeWrite blog (some 2) = .allowed) ∧
      (((updateBlog store (some 2) id body).2 = .unauthenticated) ↔
        authorizeWrite blog (some 2) = .deniedUnauthenticated) ∧
      (((updateBlog store (some 2) id body).2 = .notOwner) ↔
        authorizeWrite blog (some 2) = .deniedNotOwner) ∧
      (((deleteBlog store (some 2) id).2 = .deleted) ↔
        authorizeWrite blog (some 2) = .allowed))) :=
  authorizeWrite_characterisation livePost (some 2)

/-- C5: the publication transition of the save path is idempotent — a
second application with the same flag changes neither `isPublished` nor
`publishedAt`, whatever the second timestamp is. -/
theorem applyPublicationTransition_idempotent (p : BlogPost) (b : Bool) (t1 t2 : Nat) :
    (applyPublicationTransition (applyPublicationTransition p b t1) b t2).isPublished =
      (applyPublicationTransition p b t1).isPublished ∧
    (applyPublicationTransition (applyPublicationTransition p b t1) b t2).publishedAt =
      (applyPublicationTransition p b t1).publishedAt := by
  cases b <;> cases h : p.publishedAt <;>
    simp [applyPublicationTransition, preSaveHook, h]

/-- C6, counterexample: the claim says at least one page is reported even
when the published count is 0. On the code, `pages` is the ceiling of
`total / limit`, which is 0 for an empty collection: with no published
posts and page size 6 the handler reports `pages = 0`. -/
theorem getBlogs_empty_reports_zero_pages :
    (getBlogs [] 1 6).total = 0 ∧
    (getBlogs [] 1 6).pages = 0 ∧
    ¬(1 ≤ (getBlogs [] 1 6).pages) := by
  decide

/-- C6, amended: for a positive page size, the reported `pages` is the
ceiling of `total / pageSize` (characterised by its Galois connection), so
it is 0 — not 1 — when the collection is empty; a request for a page past
the end succeeds with an empty page rather than erroring; and on the
concrete scenario of 13 published posts with page size 6 the handler
reports 3 pages, 1 post on page 3 and 0 posts on page 4. -/
theorem getBlogs_pagination (sorted : List BlogPost) (page limit : Nat)
    (hl : 0 < limit) :
    ((getBlogs sorted page limit).success = true) ∧
    (∀ k, (getBlogs sorted page limit).pages ≤ k ↔ sorted.length ≤ k * limit) ∧
    (sorted.length = 0 → (getBlogs sorted page limit).pages = 0) ∧
    (sorted.length ≤ (page - 1) * limit →
      (getBlogs sorted page limit).count = 0 ∧
      (getBlogs sorted page limit).blogs = []) ∧
    ((getBlogs thirteen 1 6).pages = 3 ∧ (getBlogs thirteen 3 6).count = 1 ∧
      (getBlogs thirteen 4 6).count = 0 ∧ (getBlogs thirteen 4 6).success = true) := by
  refine ⟨rfl, ?_, ?_, ?_, by decide⟩
  · intro k
    show (sorted.length + limit - 1) / limit ≤ k ↔ sorted.length ≤ k * limit
    have h1 : sorted.length + limit - 1 = sorted.length + (limit - 1) := by omega
    rw [h1, Nat.div_le_iff_le_mul_add_pred hl, Nat.add_le_add_iff_right,
      Nat.mul_comm]
  · intro h0
    show (sorted.length + limit - 1) / limit = 0
    rw [h0]
    exact Nat.div_eq_of_lt (by omega)
  · intro hpast
    have hdrop : sorted.drop ((page - 1) * limit) = [] :=
      List.drop_eq_nil_of_le hpast
    constructor
    · show (((sorted.drop ((page - 1) * limit)).take limit).map dropSections).length = 0
      rw [hdrop]
      simp
    · show ((sorted.drop ((page - 1) * limit)).take limit).map dropSections = []
      rw [hdrop]
      simp

/-- C6, witness for the amended theorem at page size 6 on the empty and
the 13-post collections. -/
theorem getBlogs_pagination_witness :
    ((getBlogs [] 4 6).success = true) ∧
    (∀ k, (getBlogs [] 4 6).pages ≤ k ↔ ([] : List BlogPost).length ≤ k * 6) ∧
    (([] : List BlogPost).length = 0 → (getBlogs [] 4 6).pages = 0) ∧
    (([] : List BlogPost).length ≤ (4 - 1) * 6 →
      (getBlogs [] 4 6).count = 0 ∧ (getBlogs [] 4 6).blogs = []) ∧
    ((getBlogs thirteen 1 6).pages = 3 ∧ (getBlogs thirteen 3 6).count = 1 ∧
      (getBlogs thirteen 4 6).count = 0 ∧ (getBlogs thirteen 4 6).success = true) :=
  getBlogs_pagination [] 4 6 (by decide)

/-- C7, counterexample: the claim says no operation ever changes the
stored author reference. On the code, the update handler passes the whole
request body to `findByIdAndUpdate`, so an update whose body carries an
`author` field rewrites the stored author: updating `livePost` (author 1)
with `authorBody` stores author 2. -/
theorem updateBlog_can_change_author :
    livePost.author = 1 ∧
    findById (updateBlog [livePost] (some 1) livePost.id authorBody).1 livePost.id =
      some { livePost with author := 2 } ∧
    ({ livePost with author := 2 } : BlogPost).author ≠ livePost.author := by
  decide

/-- C7, amended: the author reference is preserved by every update whose
request body omits the `author` field (every stored document keeps the
author and id it had), and deletion never alters a surviving document; but
an update body carrying an `author` value replaces the stored author. -/
theorem updateBlog_preserves_author (store : List BlogPost) (i : Option Nat)
    (id : Nat) (body : UpdateBody) (hbody : body.author = none) :
    (∀ p' ∈ (updateBlog store i id body).1,
      ∃ p ∈ store, p'.author = p.author ∧ p'.id = p.id) ∧
    (∀ p' ∈ (deleteBlog store i id).1, p' ∈ store) := by
  constructor
  · intro p' hp'
    cases i with
    | none => exact ⟨p', hp', rfl, rfl⟩
    | some j =>
      cases hfind : findById store id with
      | none =>
        simp only [updateBlog, hfind] at hp'
        exact ⟨p', hp', rfl, rfl⟩
      | some blog =>
        simp only [updateBlog, hfind] at hp'
        by_cases hj : (blog.author != j) = true
        · rw [if_pos hj] at hp'
          exact ⟨p', hp', rfl, rfl⟩
        · rw [if_neg hj] at hp'
          simp only [replaceById, List.mem_map] at hp'
          obtain ⟨p, hpmem, hpeq⟩ := hp'
          by_cases hid : p.id == id
          · rw [if_pos hid] at hpeq
            refine ⟨blog, List.mem_of_find?_eq_some hfind, ?_, ?_⟩
            · rw [← hpeq]
              show (applyUpdate blog body).author = blog.author
              simp [applyUpdate, hbody]
            · rw [← hpeq]
              rfl
          · rw [if_neg hid] at hpeq
            exact ⟨p, hpmem, by rw [← hpeq], by rw [← hpeq]⟩
  · intro p' hp'
    cases i with
    | none => exact hp'
    | some j =>
      cases hfind : findById store id with
      | none =>
        simp only [deleteBlog, hfind] at hp'
        exact hp'
      | some blog =>
        simp only [deleteBlog, hfind] at hp'
        by_cases hj : (blog.author != j) = true
        · rw [if_pos hj] at hp'
          exact hp'
        · rw [if_neg hj] at hp'
          exact List.mem_of_mem_filter hp'

/-- C7, witness: the preservation theorem applied to a concrete update
that publishes `draftPost` without touching the author field. -/
theorem updateBlog_preserves_author_witness :
    (∀ p' ∈ (updateBlog [draftPost, livePost] (some 1) 1 publishBody).1,
      ∃ p ∈ [draftPost, livePost], p'.author = p.author ∧ p'.id = p.id) ∧
    (∀ p' ∈ (deleteBlog [draftPost, livePost] (some 1) 1).1,
      p' ∈ [draftPost, livePost]) :=
  updateBlog_preserves_author [draftPost, livePost] (some 1) 1 publishBody rfl

/-- C8, counterexample: the claim says the returned order is a function of
the input collection alone, with equal `publishedAt` tie-broken
deterministically. The query sorts only by `publishedAt` descending with
no secondary key, so for the two-post store `[tieA, tieB]` — both
published at time 50 — both `[tieA, tieB]` and `[tieB, tieA]` are answers
the store may return, and they differ. -/
theorem listVisible_order_not_deterministic :
    ValidListOutput [tieA, tieB] [tieA, tieB] ∧
    ValidListOutput [tieA, tieB] [tieB, tieA] ∧
    ([tieA, tieB] : List BlogPost) ≠ [tieB, tieA] := by
  refine ⟨by decide, by decide, by decide⟩

/-- C8, amended: every answer the store may return for the published-list
query consists of exactly the posts with `isPublished = true` (same
membership and same length as the filter), arranged by `publishedAt`
descending; the relative order of posts with equal `publishedAt` is
unspecified, so the order is not a function of the input collection. -/
theorem listVisible_published_sorted (store out : List BlogPost)
    (h : ValidListOutput store out) :
    (∀ p, p ∈ out ↔ p ∈ store ∧ p.isPublished = true) ∧
    (∀ (i j : Nat) (hi : i < out.length) (hj : j < out.length), i ≤ j →
      pubKey (out.get ⟨j, hj⟩) ≤ pubKey (out.get ⟨i, hi⟩)) ∧
    out.length = (store.filter (fun p => p.isPublished)).length := by
  obtain ⟨hperm, hsort⟩ := h
  refine ⟨?_, ?_, hperm.length_eq⟩
  · intro p
    rw [hperm.mem_iff, List.mem_filter]
  · intro i j hi hj hij
    rcases Nat.lt_or_ge i j with hlt | hge
    · exact List.pairwise_iff_get.mp hsort ⟨i, hi⟩ ⟨j, hj⟩ hlt
    · have hij' : i = j := Nat.le_antisymm hij hge
      subst hij'
      exact Nat.le_refl _

/-- C8, witness: the characterisation applied to a valid answer for the
two-post store with a decreasing pair of publish times. -/
theorem listVisible_published_sorted_witness :
    (∀ p, p ∈ [tieA, livePost] ↔ p ∈ [draftPost, tieA, livePost] ∧
      p.isPublished = true) ∧
    (∀ (i j : Nat) (hi : i < ([tieA, livePost] : List BlogPost).length)
      (hj : j < ([tieA, livePost] : List BlogPost).length), i ≤ j →
      pubKey (([tieA, livePost] : List BlogPost).get ⟨j, hj⟩) ≤
        pubKey (([tieA, livePost] : List BlogPost).get ⟨i, hi⟩)) ∧
    ([tieA, livePost] : List BlogPost).length =
      ([draftPost, tieA, livePost].filter (fun p => p.isPublished)).length :=
  listVisible_published_sorted [draftPost, tieA, livePost] [tieA, livePost]
    (by decide)

/-- C9, counterexample: the claim says every update or delete request
naming a missing id returns a not-found outcome. An unauthenticated
request naming a missing id is rejected by the `protect` middleware with
an unauthenticated outcome before the id is ever looked up, which is not
the not-found outcome. -/
theorem updateBlog_missing_id_unauthenticated :
    findById [] 1 = none ∧
    (updateBlog [] none 1 emptyBody).2 = WriteOutcome.unauthenticated ∧
    (deleteBlog [] none 1).2 = WriteOutcome.unauthenticated ∧
    WriteOutcome.unauthenticated ≠ WriteOutcome.notFound := by
  decide

/-- C9, amended: for an authenticated caller, an update or delete naming a
missing id returns not-found; a missing id never produces a not-owner
outcome (the not-found check precedes the ownership check); an
unauthenticated caller is rejected before the id is resolved; and every
denied write — unauthenticated, not-found or not-owner — leaves the
stored collection completely unchanged. -/
theorem writeDenied_no_effect (store : List BlogPost) (i : Option Nat)
    (id : Nat) (body : UpdateBody) :
    (∀ j, i = some j → findById store id = none →
      (updateBlog store i id body).2 = .notFound ∧
      (deleteBlog store i id).2 = .notFound) ∧
    (findById store id = none →
      (updateBlog store i id body).2 ≠ .notOwner ∧
      (deleteBlog store i id).2 ≠ .notOwner) ∧
    ((updateBlog store i id body).2.isDenied = true →
      (updateBlog store i id body).1 = store) ∧
    ((deleteBlog store i id).2.isDenied = true →
      (deleteBlog store i id).1 = store) := by
  cases i with
  | none => simp [updateBlog, deleteBlog, WriteOutcome.isDenied]
  | some j =>
    cases hfind : findById store id with
    | none => simp [updateBlog, deleteBlog, hfind, WriteOutcome.isDenied]
    | some blog =>
      by_cases hj : (blog.author != j) = true <;>
        simp [updateBlog, deleteBlog, hfind, hj, WriteOutcome.isDenied]

/-- C9, witness: the amended theorem at an authenticated caller and an id
that resolves to no document. -/
theorem writeDenied_no_effect_witness :
    (∀ j, (some 2 : Option Nat) = some j → findById [livePost] 7 = none →
      (updateBlog [livePost] (some 2) 7 emptyBody).2 = .notFound ∧
      (deleteBlog [livePost] (some 2) 7).2 = .notFound) ∧
    (findById [livePost] 7 = none →
      (updateBlog [livePost] (some 2) 7 emptyBody).2 ≠ .notOwner ∧
      (deleteBlog [livePost] (some 2) 7).2 ≠ .notOwner) ∧
    ((updateBlog [livePost] (some 2) 7 emptyBody).2.isDenied = true →
      (updateBlog [livePost] (some 2) 7 emptyBody).1 = [livePost]) ∧
    ((deleteBlog [livePost] (some 2) 7).2.isDenied = true →
      (deleteBlog [livePost] (some 2) 7).1 = [livePost]) :=
  writeDenied_no_effect [livePost] (some 2) 7 emptyBody

/-- C10: every post in a `getBlogs` page is the sections-free projection
of a stored post — the projection target has no sections field, is
insensitive to the sections of its source, and carries the title,
introduction, publication fields and author unchanged. -/
theorem getBlogs_omits_sections (sorted : List BlogPost) (page limit : Nat) :
    (∀ q ∈ (getBlogs sorted page limit).blogs, ∃ p ∈ sorted,
      q = dropSections p ∧ q.title = p.title ∧ q.introduction = p.introduction ∧
      q.isPublished = p.isPublished ∧ q.publishedAt = p.publishedAt ∧
      q.author = p.author ∧ q.id = p.id) ∧
    (∀ (p : BlogPost) (s : List PostSection),
      dropSections { p with sections := s } = dropSections p) := by
  constructor
  · intro q hq
    have hq' : q ∈ ((sorted.drop ((page - 1) * limit)).take limit).map dropSections :=
      hq
    obtain ⟨p, hpmem, hpeq⟩ := List.mem_map.mp hq'
    subst hpeq
    exact ⟨p, List.drop_subset _ _ (List.take_subset _ _ hpmem),
      rfl, rfl, rfl, rfl, rfl, rfl, rfl⟩
  · intro p s
    rfl

/-- C10, witness: the projection facts at the one-element page produced by
a store holding only `livePost`. -/
theorem getBlogs_omits_sections_witness :
    ∃ p ∈ [livePost], dropSections livePost = dropSections p ∧
      (dropSections livePost).title = p.title ∧
      (dropSections livePost).introduction = p.introduction ∧
      (dropSections livePost).isPublished = p.isPublished ∧
      (dropSections livePost).publishedAt = p.publishedAt ∧
      (dropSections livePost).author = p.author ∧
      (dropSections livePost).id = p.id :=
  (getBlogs_omits_sections [livePost] 1 10).1 (dropSections livePost) (by decide)

end BlogApp
